import Mathlib

/-!
Verification of the Indodax MCP server (`src/server.py`).

The development shallowly embeds the request-construction logic of the
server: the signed private dispatcher `_private_post`, the public fetcher
`_public_get`, startup credential loading, and the tool adapters whose
payload assembly the claims mention.  Machine integers are modelled as
`Nat` with explicit reduction modulo `2 ^ 64`; SHA-512 and HMAC are
implemented in full so that the known-vector claim can be evaluated by
the kernel.  Effects (the actual HTTP send, the wall clock) are made
explicit: the current epoch-millisecond value is a parameter, and the
HTTP response status is a parameter of the response-handling functions.
-/

namespace Indodax

/-! ## 64-bit word arithmetic (Nat with explicit mod 2^64) -/

/-- All ones in 64 bits, `2 ^ 64 - 1`. -/
def mask64 : Nat := 18446744073709551615

/-- Addition modulo `2 ^ 64`. -/
def add64 (a b : Nat) : Nat := (a + b) % 18446744073709551616

/-- Right rotation of a 64-bit word. -/
def rotr64 (n x : Nat) : Nat := ((x >>> n) ||| (x <<< (64 - n))) &&& mask64

/-- Bitwise complement within 64 bits (for `x ≤ mask64`). -/
def not64 (x : Nat) : Nat := x ^^^ mask64

/-! ## SHA-512 (FIPS 180-4) -/

/-- The 80 SHA-512 round constants (FIPS 180-4, in decimal). -/
def sha512K : List Nat := [
  4794697086780616226, 8158064640168781261, 13096744586834688815,
  16840607885511220156, 4131703408338449720, 6480981068601479193,
  10538285296894168987, 12329834152419229976, 15566598209576043074,
  1334009975649890238, 2608012711638119052, 6128411473006802146,
  8268148722764581231, 9286055187155687089, 11230858885718282805,
  13951009754708518548, 16472876342353939154, 17275323862435702243,
  1135362057144423861, 2597628984639134821, 3308224258029322869,
  5365058923640841347, 6679025012923562964, 8573033837759648693,
  10970295158949994411, 12119686244451234320, 12683024718118986047,
  13788192230050041572, 14330467153632333762, 15395433587784984357,
  489312712824947311, 1452737877330783856, 2861767655752347644,
  3322285676063803686, 5560940570517711597, 5996557281743188959,
  7280758554555802590, 8532644243296465576, 9350256976987008742,
  10552545826968843579, 11727347734174303076, 12113106623233404929,
  14000437183269869457, 14369950271660146224, 15101387698204529176,
  15463397548674623760, 17586052441742319658, 1182934255886127544,
  1847814050463011016, 2177327727835720531, 2830643537854262169,
  3796741975233480872, 4115178125766777443, 5681478168544905931,
  6601373596472566643, 7507060721942968483, 8399075790359081724,
  8693463985226723168, 9568029438360202098, 10144078919501101548,
  10430055236837252648, 11840083180663258601, 13761210420658862357,
  14299343276471374635, 14566680578165727644, 15097957966210449927,
  16922976911328602910, 17689382322260857208, 500013540394364858,
  748580250866718886, 1242879168328830382, 1977374033974150939,
  2944078676154940804, 3659926193048069267, 4368137639120453308,
  4836135668995329356, 5532061633213252278, 6448918945643986474,
  6902733635092675308, 7801388544844847127]

/-- Intermediate hash state: the eight working variables of SHA-512. -/
structure Sha512State where
  a : Nat
  b : Nat
  c : Nat
  d : Nat
  e : Nat
  f : Nat
  g : Nat
  h : Nat

/-- The SHA-512 initial hash value (FIPS 180-4, in decimal). -/
def sha512H0 : Sha512State :=
  ⟨7640891576956012808, 13503953896175478587, 4354685564936845355,
   11912009170470909681, 5840696475078001361, 11170449401992604703,
   2270897969802886507, 6620516959819538809⟩

def chF (x y z : Nat) : Nat := (x &&& y) ^^^ (not64 x &&& z)

def majF (x y z : Nat) : Nat := (x &&& y) ^^^ (x &&& z) ^^^ (y &&& z)

def bigSigma0 (x : Nat) : Nat := rotr64 28 x ^^^ rotr64 34 x ^^^ rotr64 39 x

def bigSigma1 (x : Nat) : Nat := rotr64 14 x ^^^ rotr64 18 x ^^^ rotr64 41 x

def smallSigma0 (x : Nat) : Nat := rotr64 1 x ^^^ rotr64 8 x ^^^ (x >>> 7)

def smallSigma1 (x : Nat) : Nat := rotr64 19 x ^^^ rotr64 61 x ^^^ (x >>> 6)

/-- `n`-byte big-endian encoding of `v`. -/
def toBytesBE (n v : Nat) : List Nat :=
  (List.range n).map (fun i => (v >>> (8 * (n - 1 - i))) &&& 255)

/-- SHA-512 padding: append `0x80`, zeros, and the 16-byte big-endian bit
length, reaching a multiple of 128 bytes. -/
def padMessage (m : List Nat) : List Nat :=
  let L := m.length
  let k := (128 - (L + 17) % 128) % 128
  m ++ 128 :: List.replicate k 0 ++ toBytesBE 16 (8 * L)

/-- Group a byte list into big-endian 64-bit words. -/
def bytesToWords : List Nat → List Nat
  | b0 :: b1 :: b2 :: b3 :: b4 :: b5 :: b6 :: b7 :: rest =>
      ([b0, b1, b2, b3, b4, b5, b6, b7].foldl (fun acc x => acc * 256 + x) 0)
        :: bytesToWords rest
  | _ => []

/-- Split a word list into `n` chunks of 16 words. -/
def splitBlocks : Nat → List Nat → List (List Nat)
  | 0, _ => []
  | n + 1, ws => ws.take 16 :: splitBlocks n (ws.drop 16)

/-- One step of the message-schedule extension: append word `W[i]`
computed from the words already present. -/
def scheduleStep (w : List Nat) : List Nat :=
  let i := w.length
  w ++ [add64 (add64 (smallSigma1 (w.getD (i - 2) 0)) (w.getD (i - 7) 0))
         (add64 (smallSigma0 (w.getD (i - 15) 0)) (w.getD (i - 16) 0))]

/-- Extend a 16-word block to the 80-word message schedule. -/
def schedule (block : List Nat) : List Nat :=
  (List.range 64).foldl (fun w _ => scheduleStep w) block

/-- One SHA-512 round, consuming a pair (round constant, schedule word). -/
def roundStep (st : Sha512State) (kw : Nat × Nat) : Sha512State :=
  let t1 := add64 st.h (add64 (bigSigma1 st.e)
    (add64 (chF st.e st.f st.g) (add64 kw.1 kw.2)))
  let t2 := add64 (bigSigma0 st.a) (majF st.a st.b st.c)
  ⟨add64 t1 t2, st.a, st.b, st.c, add64 st.d t1, st.e, st.f, st.g⟩

/-- Compression function: run 80 rounds over one block and add the result
to the incoming state. -/
def compress (st : Sha512State) (block : List Nat) : Sha512State :=
  let fin := (sha512K.zip (schedule block)).foldl roundStep st
  ⟨add64 st.a fin.a, add64 st.b fin.b, add64 st.c fin.c, add64 st.d fin.d,
   add64 st.e fin.e, add64 st.f fin.f, add64 st.g fin.g, add64 st.h fin.h⟩

/-- SHA-512 digest of a byte list, as a 64-byte list. -/
def sha512Bytes (msg : List Nat) : List Nat :=
  let words := bytesToWords (padMessage msg)
  let st := (splitBlocks (words.length / 16) words).foldl compress sha512H0
  ([st.a, st.b, st.c, st.d, st.e, st.f, st.g, st.h].map (toBytesBE 8)).foldr
    (fun x acc => x ++ acc) []

/-! ## HMAC-SHA512 and hex encoding -/

/-- Lowercase hex digit. -/
def hexDigitL (n : Nat) : Char :=
  if n < 10 then Char.ofNat (48 + n) else Char.ofNat (87 + n)

/-- Two lowercase hex digits of a byte, as in Python's `hexdigest`. -/
def hexByte (b : Nat) : String := String.mk [hexDigitL (b / 16), hexDigitL (b % 16)]

/-- Lowercase hex encoding of a byte list. -/
def hexOfBytes (bs : List Nat) : String := String.join (bs.map hexByte)

/-- UTF-8 encoding of one character. -/
def utf8Char (c : Char) : List Nat :=
  let n := c.toNat
  if n < 128 then [n]
  else if n < 2048 then [192 ||| (n >>> 6), 128 ||| (n &&& 63)]
  else if n < 65536 then
    [224 ||| (n >>> 12), 128 ||| ((n >>> 6) &&& 63), 128 ||| (n &&& 63)]
  else
    [240 ||| (n >>> 18), 128 ||| ((n >>> 12) &&& 63),
     128 ||| ((n >>> 6) &&& 63), 128 ||| (n &&& 63)]

/-- UTF-8 encoding of a string, as Python's `str.encode()`. -/
def utf8Encode (s : String) : List Nat :=
  (s.data.map utf8Char).foldr (fun x acc => x ++ acc) []

/-- HMAC-SHA512 over byte lists (RFC 2104 with SHA-512, block size 128). -/
def hmacSha512 (key msg : List Nat) : List Nat :=
  let k0 := if 128 < key.length then sha512Bytes key else key
  let kp := k0 ++ List.replicate (128 - k0.length) 0
  sha512Bytes ((kp.map (fun b => b ^^^ 92)) ++
    sha512Bytes ((kp.map (fun b => b ^^^ 54)) ++ msg))

/-- `hmac.new(secret.encode(), body.encode(), hashlib.sha512).hexdigest()`:
hex HMAC-SHA512 of UTF-8 strings. -/
def hexHmacSha512 (secret msg : String) : String :=
  hexOfBytes (hmacSha512 (utf8Encode secret) (utf8Encode msg))

/-! ## `urllib.parse.urlencode` -/

/-- A scalar payload value as the server uses them.  A Python `float`
value is modelled by its `str()` decimal representation (no claim
depends on float formatting); an `int` is an `Int`. -/
inductive Value where
  | str (s : String)
  | int (n : Int)
  | float (r : String)
deriving DecidableEq, Repr

/-- Python `str()` applied to a payload value. -/
def pyStr : Value → String
  | .str s => s
  | .int n => toString n
  | .float r => r

/-- Characters `urllib.parse.quote` never encodes: ASCII alphanumerics
and `_.-~`. -/
def isSafeChar (c : Char) : Bool :=
  c.isAlphanum || c == '_' || c == '.' || c == '-' || c == '~'

/-- Uppercase hex digit, as in percent-escapes. -/
def hexDigitU (n : Nat) : Char :=
  if n < 10 then Char.ofNat (48 + n) else Char.ofNat (55 + n)

/-- A `%XX` escape of one byte. -/
def pctByte (b : Nat) : String := String.mk ['%', hexDigitU (b / 16), hexDigitU (b % 16)]

/-- `urllib.parse.quote_plus` on one character: space becomes `+`, safe
characters stay, everything else percent-encodes its UTF-8 bytes. -/
def quotePlusChar (c : Char) : String :=
  if c == ' ' then "+"
  else if isSafeChar c then String.mk [c]
  else String.join ((utf8Char c).map pctByte)

/-- `urllib.parse.quote_plus` on a string. -/
def quotePlus (s : String) : String := String.join (s.data.map quotePlusChar)

/-- A request payload: the insertion-ordered mapping Python's `dict`
gives, as an association list. -/
abbrev Payload := List (String × Value)

/-- `urllib.parse.urlencode(payload)`: `k=v` pairs joined by `&`, keys
and stringified values passed through `quote_plus`. -/
def urlencode (p : Payload) : String :=
  String.intercalate "&" (p.map (fun kv => quotePlus kv.1 ++ "=" ++ quotePlus (pyStr kv.2)))

/-! ## The signed private dispatcher `_private_post` -/

/-- Python `k in payload` on the payload dict. -/
def hasKey (p : Payload) (k : String) : Bool := p.any (fun kv => kv.1 == k)

/-- Number of fields named `k` in the payload. -/
def countKey (p : Payload) (k : String) : Nat := p.countP (fun kv => kv.1 == k)

/-- Lines 75–78 of `server.py`: when the payload has neither a
`timestamp` nor a `nonce` field, set `payload["timestamp"]` to the
current epoch milliseconds (`nowMs`, i.e. `int(time() * 1000)`); a
`dict` assignment of a fresh key appends it in insertion order. -/
def preparePayload (payload : Payload) (nowMs : Int) : Payload :=
  if !hasKey payload "timestamp" && !hasKey payload "nonce" then
    payload ++ [("timestamp", Value.int nowMs)]
  else payload

def INDODAX_API_URL : String := "https://indodax.com/tapi"

/-- The HTTP POST request `_private_post` hands to `httpx`: URL, header
list, and the body string (transmitted as its UTF-8 bytes). -/
structure PrivateRequest where
  url : String
  headers : List (String × String)
  body : String
deriving DecidableEq, Repr

/-- Lines 75–90 of `server.py` (`_private_post` up to the send): fill in
`timestamp` when needed, serialize with `urlencode`, sign the serialized
body with HMAC-SHA512 under `API_SECRET`, and attach the `Key`, `Sign`
and `Content-Type` headers.  The wall clock is the explicit `nowMs`. -/
def privatePostRequest (apiSecret apiKey : String) (payload : Payload) (nowMs : Int) :
    PrivateRequest :=
  let body := urlencode (preparePayload payload nowMs)
  let sign := hexHmacSha512 apiSecret body
  { url := INDODAX_API_URL
    headers := [("Key", apiKey), ("Sign", sign),
                ("Content-Type", "application/x-www-form-urlencoded")]
    body := body }

/-! ## Response handling (`raise_for_status`) -/

/-- `httpx.Response.is_success`: status in the 2xx range.
`raise_for_status` raises `HTTPStatusError` for every other status. -/
def isSuccessStatus (status : Nat) : Bool := 200 ≤ status && status < 300

/-- Lines 91–92 of `server.py`: `response.raise_for_status()` then
`return response.json()`.  The response is (status, parsed JSON body);
a non-2xx status becomes an `Except.error` carrying the status, which
FastMCP surfaces as a failed tool invocation. -/
def privatePostResponse {α : Type} (status : Nat) (jsonBody : α) : Except Nat α :=
  if isSuccessStatus status then .ok jsonBody else .error status

/-- Lines 104–105 of `server.py`: the same handling in `_public_get`. -/
def publicGetResponse {α : Type} (status : Nat) (jsonBody : α) : Except Nat α :=
  if isSuccessStatus status then .ok jsonBody else .error status

/-! ## The public fetcher `_public_get` -/

def PUBLIC_API_BASE : String := "https://indodax.com/api"

/-- Line 101 of `server.py`: the URL `_public_get` targets. -/
def publicGetUrl (path : String) : String := PUBLIC_API_BASE ++ "/" ++ path

/-! ## Startup credential loading (lines 52–59) -/

/-- Python `a or b` on `Optional[str]` operands: `a` unless it is falsy
(`None` or the empty string), else `b`. -/
def pyOr (a b : Option String) : Option String :=
  match a with
  | some s => if s == "" then b else some s
  | none => b

/-- Python falsiness of an `Optional[str]`: `None` or `""`. -/
def pyFalsy : Option String → Bool
  | some s => s == ""
  | none => true

/-- Python truthiness of an `Optional[str]`: present and non-empty. -/
def pyTruthyStr : Option String → Bool
  | some s => !(s == "")
  | none => false

/-- The immutable credential pair loaded at process start. -/
structure Config where
  apiKey : String
  apiSecret : String
deriving DecidableEq, Repr

/-- Lines 52–59 of `server.py`: read `INDODAX_API_KEY`, read
`INDODAX_API_SECRET` falling back to the legacy `INDODAX_SECRET_KEY`,
and raise `RuntimeError` when either resulting credential is falsy.
`env` is `os.getenv`. -/
def startup (env : String → Option String) : Except String Config :=
  let apiKey := env "INDODAX_API_KEY"
  let apiSecret := pyOr (env "INDODAX_API_SECRET") (env "INDODAX_SECRET_KEY")
  if pyFalsy apiKey || pyFalsy apiSecret then
    .error "Please set INDODAX_API_KEY and INDODAX_API_SECRET (or INDODAX_SECRET_KEY) in environment or .env file"
  else
    .ok { apiKey := apiKey.getD "", apiSecret := apiSecret.getD "" }

/-! ## Tool adapters (payload assembly and paths) -/

/-- Python `if v: payload[k] = v` for an `Optional[str]` parameter:
insert only when the value is truthy (present and non-empty). -/
def addIfTruthyStr (p : Payload) (k : String) (v : Option String) : Payload :=
  match v with
  | some s => if s == "" then p else p ++ [(k, Value.str s)]
  | none => p

/-- Python `if v is not None: payload[k] = v`: insert whenever present. -/
def addIfNotNone (p : Payload) (k : String) (v : Option Value) : Payload :=
  match v with
  | some x => p ++ [(k, x)]
  | none => p

/-- A Python `float` argument, modelled by its `str()` representation. -/
abbrev PyFloat := String

/-- Lines 128–131 of `server.py` (`ticker`): the path is
`f"ticker/{pair_id}" if pair_id else "ticker"`, with Python truthiness
on the optional string. -/
def tickerPath : Option String → String
  | some p => if p == "" then "ticker" else "ticker/" ++ p
  | none => "ticker"

/-- Line 151: payload of `get_info`. -/
def getInfoPayload : Payload := [("method", Value.str "getInfo")]

/-- Lines 160–165 (`trans_history`): `start`/`end` inserted only when
truthy. -/
def transHistoryPayload (start end_ : Option String) : Payload :=
  let p : Payload := [("method", Value.str "transHistory")]
  let p := addIfTruthyStr p "start" start
  addIfTruthyStr p "end" end_

/-- Lines 179–189 (`trade`): required `method`, `pair`, `type`, `price`;
`idr`/`crypto` inserted when not `None`. -/
def tradePayload (pair type_ : String) (price : PyFloat)
    (idr crypto : Option PyFloat) : Payload :=
  let p : Payload := [("method", Value.str "trade"), ("pair", Value.str pair),
    ("type", Value.str type_), ("price", Value.float price)]
  let p := addIfNotNone p "idr" (idr.map Value.float)
  addIfNotNone p "crypto" (crypto.map Value.float)

/-- Lines 291–301 (`withdraw_coin`): required `method`, `currency`,
`amount`, `address`; `network`/`memo` inserted only when truthy. -/
def withdrawCoinPayload (currency : String) (amount : PyFloat) (address : String)
    (network memo : Option String) : Payload :=
  let p : Payload := [("method", Value.str "withdrawCoin"),
    ("currency", Value.str currency), ("amount", Value.float amount),
    ("address", Value.str address)]
  let p := addIfTruthyStr p "network" network
  addIfTruthyStr p "memo" memo

/-! ## Helper lemmas -/

theorem hasKey_append (p q : Payload) (k : String) :
    hasKey (p ++ q) k = (hasKey p k || hasKey q k) :=
  List.any_append

theorem countKey_append (p q : Payload) (k : String) :
    countKey (p ++ q) k = countKey p k + countKey q k :=
  List.countP_append _ p q

theorem countKey_eq_zero_of_hasKey_false (p : Payload) (k : String)
    (h : hasKey p k = false) : countKey p k = 0 := by
  rw [countKey, List.countP_eq_zero]
  intro a ha
  rw [hasKey, List.any_eq_false] at h
  exact h a ha

theorem hasKey_addIfTruthyStr_same (p : Payload) (k : String) (v : Option String) :
    hasKey (addIfTruthyStr p k v) k = (hasKey p k || pyTruthyStr v) := by
  cases v with
  | none => simp [addIfTruthyStr, pyTruthyStr]
  | some s =>
    by_cases hs : s = "" <;>
      simp [addIfTruthyStr, pyTruthyStr, hs, hasKey, List.any_append]

theorem hasKey_addIfTruthyStr_ne (p : Payload) (j k : String) (v : Option String)
    (h : (j == k) = false) :
    hasKey (addIfTruthyStr p j v) k = hasKey p k := by
  cases v with
  | none => rfl
  | some s =>
    by_cases hs : s = "" <;>
      simp [addIfTruthyStr, hs, hasKey, List.any_append, h]

theorem hasKey_addIfNotNone_same (p : Payload) (k : String) (v : Option Value) :
    hasKey (addIfNotNone p k v) k = (hasKey p k || v.isSome) := by
  cases v <;> simp [addIfNotNone, hasKey, List.any_append]

theorem hasKey_addIfNotNone_ne (p : Payload) (j k : String) (v : Option Value)
    (h : (j == k) = false) :
    hasKey (addIfNotNone p j v) k = hasKey p k := by
  cases v <;> simp [addIfNotNone, hasKey, List.any_append, h]

theorem pyFalsy_pyOr (a b : Option String) :
    pyFalsy (pyOr a b) = (pyFalsy a && pyFalsy b) := by
  cases a with
  | none => simp [pyOr, pyFalsy]
  | some s => by_cases hs : s = "" <;> simp [pyOr, pyFalsy, hs]

/-! ## Claim theorems -/

/-- C1: for every payload mapping, the `Sign` header of the dispatched
request equals the hex HMAC-SHA512, keyed by the configured secret, of
exactly the serialized form-urlencoded byte string that is transmitted
as the request body: recomputing the signature from the UTF-8 bytes of
the transmitted `body` reproduces the header byte-for-byte. -/
theorem sign_matches_transmitted_body (apiSecret apiKey : String)
    (payload : Payload) (nowMs : Int) :
    (privatePostRequest apiSecret apiKey payload nowMs).headers.lookup "Sign" =
      some (hexOfBytes (hmacSha512 (utf8Encode apiSecret)
        (utf8Encode (privatePostRequest apiSecret apiKey payload nowMs).body))) := by
  rfl

/-- C2: when the payload lacks both `nonce` and `timestamp`, the signed
dispatcher adds exactly one `timestamp` field, set to the current epoch
milliseconds, before serializing and signing; when either key is
present, nothing is added; and the transmitted body is the serialization
of that prepared payload. -/
theorem timestamp_injection_exact (apiSecret apiKey : String)
    (payload : Payload) (nowMs : Int) :
    (hasKey payload "timestamp" = false → hasKey payload "nonce" = false →
      countKey (preparePayload payload nowMs) "timestamp" = 1 ∧
      preparePayload payload nowMs = payload ++ [("timestamp", Value.int nowMs)]) ∧
    (hasKey payload "timestamp" = true ∨ hasKey payload "nonce" = true →
      preparePayload payload nowMs = payload) ∧
    (privatePostRequest apiSecret apiKey payload nowMs).body =
      urlencode (preparePayload payload nowMs) := by
  refine ⟨?_, ?_, rfl⟩
  · intro hts hn
    have h0 : countKey payload "timestamp" = 0 :=
      countKey_eq_zero_of_hasKey_false payload "timestamp" hts
    have hprep : preparePayload payload nowMs =
        payload ++ [("timestamp", Value.int nowMs)] := by
      simp [preparePayload, hts, hn]
    refine ⟨?_, hprep⟩
    rw [hprep, countKey_append, h0]
    rfl
  · intro h
    rcases h with h | h <;> simp [preparePayload, h]

/-- C2 witness: a concrete payload lacking both keys gets exactly one
`timestamp` field carrying the supplied epoch milliseconds. -/
theorem timestamp_injection_exact_witness :
    countKey (preparePayload [("method", Value.str "getInfo")] 1700000000000) "timestamp" = 1 ∧
    preparePayload [("method", Value.str "getInfo")] 1700000000000 =
      [("method", Value.str "getInfo"), ("timestamp", Value.int 1700000000000)] :=
  (timestamp_injection_exact "s" "k" [("method", Value.str "getInfo")] 1700000000000).1
    (by decide) (by decide)

/-- C3: every response with a non-2xx HTTP status, on the private POST
path and on the public GET path alike, is turned into an error (a failed
tool invocation), never a silently returned success. -/
theorem non_success_status_fails {α : Type} (status : Nat) (jsonBody : α)
    (h : ¬(200 ≤ status ∧ status < 300)) :
    privatePostResponse status jsonBody = Except.error status ∧
    publicGetResponse status jsonBody = Except.error status := by
  have hf : isSuccessStatus status = false := by
    simp [isSuccessStatus]
    omega
  simp [privatePostResponse, publicGetResponse, hf]

/-- C3 witness: a POST (and a GET) receiving HTTP 500 fails. -/
theorem non_success_status_fails_witness :
    privatePostResponse 500 "body" = Except.error 500 ∧
    publicGetResponse 500 "body" = Except.error 500 :=
  non_success_status_fails 500 "body" (by omega)

/-- C5: with a caller-supplied `nonce` (or `timestamp`) in the payload,
the dispatched request — body and signature included — is a
deterministic function of the credentials and payload alone: two runs at
different wall-clock times produce identical requests. -/
theorem signing_deterministic (apiSecret apiKey : String) (payload : Payload)
    (t1 t2 : Int)
    (h : hasKey payload "nonce" = true ∨ hasKey payload "timestamp" = true) :
    privatePostRequest apiSecret apiKey payload t1 =
      privatePostRequest apiSecret apiKey payload t2 := by
  have hp : ∀ t : Int, preparePayload payload t = payload := by
    intro t
    rcases h with h | h <;> simp [preparePayload, h]
  simp [privatePostRequest, hp]

/-- C5 witness: two runs at times 0 and 99 over a nonce-carrying payload
yield the same request. -/
theorem signing_deterministic_witness :
    privatePostRequest "s" "k" [("method", Value.str "getInfo"), ("nonce", Value.str "1")] 0 =
      privatePostRequest "s" "k" [("method", Value.str "getInfo"), ("nonce", Value.str "1")] 99 :=
  signing_deterministic "s" "k" [("method", Value.str "getInfo"), ("nonce", Value.str "1")]
    0 99 (Or.inl (by decide))

set_option maxRecDepth 4000000 in
/-- C4: the payload `{method: "getInfo", nonce: "1"}` with secret
`"s3cr3t"` serializes as exactly `method=getInfo&nonce=1`, and the
`Sign` header is the hex HMAC-SHA512 of that string under that key — the
digest shown is the independently computed known vector. -/
theorem getInfo_known_vector (apiKey : String) (nowMs : Int) :
    (privatePostRequest "s3cr3t" apiKey
        [("method", Value.str "getInfo"), ("nonce", Value.str "1")] nowMs).body =
      "method=getInfo&nonce=1" ∧
    (privatePostRequest "s3cr3t" apiKey
        [("method", Value.str "getInfo"), ("nonce", Value.str "1")] nowMs).headers.lookup
        "Sign" =
      some "84adc5876bacba72760d9ba3302afc1c5558e224afc6f89d7dd182bd1c03a53ffa08558b1bbb7562efeddb91c49318269d50589bcd729c2fa82ef1f3584cb9e0" := by
  constructor
  · rfl
  · have hb : (privatePostRequest "s3cr3t" apiKey
        [("method", Value.str "getInfo"), ("nonce", Value.str "1")] nowMs).headers.lookup
        "Sign" = some (hexHmacSha512 "s3cr3t" "method=getInfo&nonce=1") := rfl
    have hv : hexHmacSha512 "s3cr3t" "method=getInfo&nonce=1" =
        "84adc5876bacba72760d9ba3302afc1c5558e224afc6f89d7dd182bd1c03a53ffa08558b1bbb7562efeddb91c49318269d50589bcd729c2fa82ef1f3584cb9e0" := by
      decide
    rw [hb, hv]

/-- C6: startup fails exactly when the API key variable is absent or
empty, or both accepted secret variable names are absent or empty; and
with the key present, the primary secret name unset, and the legacy
name set non-empty, the process starts with the legacy value as the
secret. -/
theorem startup_credential_gate (env : String → Option String) :
    ((startup env).isOk = false ↔
      (pyFalsy (env "INDODAX_API_KEY") = true ∨
        (pyFalsy (env "INDODAX_API_SECRET") = true ∧
          pyFalsy (env "INDODAX_SECRET_KEY") = true))) ∧
    (∀ k v, env "INDODAX_API_KEY" = some k → k ≠ "" →
      env "INDODAX_API_SECRET" = none → env "INDODAX_SECRET_KEY" = some v → v ≠ "" →
      startup env = Except.ok ⟨k, v⟩) := by
  constructor
  · have hps := pyFalsy_pyOr (env "INDODAX_API_SECRET") (env "INDODAX_SECRET_KEY")
    simp only [startup, hps]
    cases hk : pyFalsy (env "INDODAX_API_KEY") <;>
      cases h1 : pyFalsy (env "INDODAX_API_SECRET") <;>
        cases h2 : pyFalsy (env "INDODAX_SECRET_KEY") <;>
          simp [Except.isOk, Except.toBool]
  · intro k v hk hkne hs1 hs2 hvne
    have h1 : (k == "") = false := beq_eq_false_iff_ne.mpr hkne
    have h2 : (v == "") = false := beq_eq_false_iff_ne.mpr hvne
    simp [startup, hk, hs1, hs2, pyOr, pyFalsy, h1, h2]

/-- C6 witness: key set and only the legacy secret name set: the process
starts with the legacy value as the secret. -/
theorem startup_credential_gate_witness :
    startup (fun n => if n = "INDODAX_API_KEY" then some "k0"
      else if n = "INDODAX_SECRET_KEY" then some "s0" else none) =
      Except.ok ⟨"k0", "s0"⟩ :=
  (startup_credential_gate _).2 "k0" "s0" (by simp) (by simp) (by simp) (by simp) (by simp)

/-- C7: in every adapter with optional parameters, an unsupplied
optional parameter yields no field at all in the payload, and the field
exists only when the caller supplied the parameter: presence of
`start`/`end` in `trans_history`, `idr`/`crypto` in `trade`, and
`network`/`memo` in `withdraw_coin` equals exactly the truthiness test
the adapter applies to the argument. -/
theorem optional_fields_omitted (start end_ : Option String)
    (pair type_ : String) (price : PyFloat) (idr crypto : Option PyFloat)
    (currency : String) (amount : PyFloat) (address : String)
    (network memo : Option String) :
    hasKey (transHistoryPayload start end_) "start" = pyTruthyStr start ∧
    hasKey (transHistoryPayload start end_) "end" = pyTruthyStr end_ ∧
    hasKey (tradePayload pair type_ price idr crypto) "idr" = idr.isSome ∧
    hasKey (tradePayload pair type_ price idr crypto) "crypto" = crypto.isSome ∧
    hasKey (withdrawCoinPayload currency amount address network memo) "network" =
      pyTruthyStr network ∧
    hasKey (withdrawCoinPayload currency amount address network memo) "memo" =
      pyTruthyStr memo := by
  refine ⟨?_, ?_, ?_, ?_, ?_, ?_⟩
  · simp only [transHistoryPayload]
    rw [hasKey_addIfTruthyStr_ne _ _ _ _ (by decide), hasKey_addIfTruthyStr_same]
    simp [hasKey]
  · simp only [transHistoryPayload]
    rw [hasKey_addIfTruthyStr_same, hasKey_addIfTruthyStr_ne _ _ _ _ (by decide)]
    simp [hasKey]
  · simp only [tradePayload]
    rw [hasKey_addIfNotNone_ne _ _ _ _ (by decide), hasKey_addIfNotNone_same]
    cases idr <;> simp [hasKey]
  · simp only [tradePayload]
    rw [hasKey_addIfNotNone_same, hasKey_addIfNotNone_ne _ _ _ _ (by decide)]
    cases crypto <;> simp [hasKey]
  · simp only [withdrawCoinPayload]
    rw [hasKey_addIfTruthyStr_ne _ _ _ _ (by decide), hasKey_addIfTruthyStr_same]
    simp [hasKey]
  · simp only [withdrawCoinPayload]
    rw [hasKey_addIfTruthyStr_same, hasKey_addIfTruthyStr_ne _ _ _ _ (by decide)]
    simp [hasKey]

/-- C8: the ticker tool with no pair argument targets the aggregate path
`ticker`, and with `pair_id = "btc_idr"` targets `ticker/btc_idr`; the
public fetcher prepends the fixed public base URL. -/
theorem ticker_paths :
    tickerPath none = "ticker" ∧
    tickerPath (some "btc_idr") = "ticker/btc_idr" ∧
    publicGetUrl (tickerPath none) = "https://indodax.com/api/ticker" ∧
    publicGetUrl (tickerPath (some "btc_idr")) =
      "https://indodax.com/api/ticker/btc_idr" :=
  ⟨rfl, rfl, rfl, rfl⟩

/-- C9: the transmitted data carries the secret only through the HMAC:
the header list is exactly `Key` (the API key), `Sign` (the HMAC of the
body under the secret), and the content type, and the body and URL are
independent of the secret (replacing the secret by any other changes
neither). -/
theorem secret_only_hmac_key (apiSecret otherSecret apiKey : String)
    (payload : Payload) (nowMs : Int) :
    (privatePostRequest apiSecret apiKey payload nowMs).headers =
      [("Key", apiKey),
       ("Sign", hexHmacSha512 apiSecret
         (privatePostRequest apiSecret apiKey payload nowMs).body),
       ("Content-Type", "application/x-www-form-urlencoded")] ∧
    (privatePostRequest otherSecret apiKey payload nowMs).body =
      (privatePostRequest apiSecret apiKey payload nowMs).body ∧
    (privatePostRequest otherSecret apiKey payload nowMs).url =
      (privatePostRequest apiSecret apiKey payload nowMs).url :=
  ⟨rfl, rfl, rfl⟩

/-- C10: the dispatcher's effect on the caller-supplied mapping: when
both `nonce` and `timestamp` are missing, afterwards the mapping is the
original pairs unchanged followed by the injected `timestamp`; when
either is present the mapping is untouched. -/
theorem payload_mutation_frame (payload : Payload) (nowMs : Int) :
    (hasKey payload "timestamp" = false → hasKey payload "nonce" = false →
      (preparePayload payload nowMs).take payload.length = payload ∧
      (preparePayload payload nowMs).drop payload.length =
        [("timestamp", Value.int nowMs)]) ∧
    (hasKey payload "timestamp" = true ∨ hasKey payload "nonce" = true →
      preparePayload payload nowMs = payload) := by
  constructor
  · intro hts hn
    have hprep : preparePayload payload nowMs =
        payload ++ [("timestamp", Value.int nowMs)] := by
      simp [preparePayload, hts, hn]
    rw [hprep]
    exact ⟨List.take_left payload _, List.drop_left payload _⟩
  · intro h
    rcases h with h | h <;> simp [preparePayload, h]

/-- C10 witness: a mapping without either key gains exactly the
appended `timestamp` pair; a mapping with a `nonce` is untouched. -/
theorem payload_mutation_frame_witness :
    (preparePayload [("method", Value.str "getInfo")] 7).take 1 =
        [("method", Value.str "getInfo")] ∧
    (preparePayload [("method", Value.str "getInfo")] 7).drop 1 =
        [("timestamp", Value.int 7)] ∧
    preparePayload [("method", Value.str "getInfo"), ("nonce", Value.str "2")] 7 =
        [("method", Value.str "getInfo"), ("nonce", Value.str "2")] :=
  ⟨((payload_mutation_frame [("method", Value.str "getInfo")] 7).1
      (by decide) (by decide)).1,
   ((payload_mutation_frame [("method", Value.str "getInfo")] 7).1
      (by decide) (by decide)).2,
   (payload_mutation_frame [("method", Value.str "getInfo"),
      ("nonce", Value.str "2")] 7).2 (Or.inr (by decide))⟩

end Indodax
